import Mathlib

/-!
Verification development for the SNS project's API route handlers.

The route handlers under `src/app/api` are straight-line async functions:
each external call (Clerk auth, Supabase query, storage upload) either
yields data or an error, and the handler branches on that outcome.  We
embed each handler as a pure Lean function over
  * a `World` modelling the relational store's tables, and
  * an environment record carrying the outcome of each external call
    (the authenticated Clerk id, and one failure flag per query that can
    fail independently of the store's contents).
Responses are records of the HTTP status, a message tag (one constructor
per distinct message string in the source), the resulting store, and the
observable side effects (uploaded / removed storage keys).
-/

namespace Sns

/-- A row of the `users` table: internal id, Clerk external id, display name. -/
structure UserRow where
  id : String
  clerk_id : String
  name : String
deriving DecidableEq, Repr

/-- A row of the `posts` table. `created_at` is an abstract timestamp. -/
structure PostRow where
  id : String
  user_id : String
  image_url : String
  caption : Option String
  created_at : Nat
deriving DecidableEq, Repr

/-- A row of the `comments` table. -/
structure CommentRow where
  id : String
  post_id : String
  user_id : String
  content : String
  created_at : Nat
  updated_at : Nat
deriving DecidableEq, Repr

/-- The relational store.  `likes` rows are `(post_id, user_id)` pairs and
`follows` rows are `(follower_id, following_id)` pairs; uniqueness of those
pairs is the store-level constraint surfaced as error code 23505.
`nextId` seeds the id generated for the next inserted post. -/
structure World where
  users : List UserRow
  posts : List PostRow
  comments : List CommentRow
  likes : List (String × String)
  follows : List (String × String)
  nextId : Nat
deriving DecidableEq, Repr

/-- Result of a supabase `.single()` query over rows satisfying `p`:
some row exactly when one row matches, none on zero or several matches. -/
def singleBy (l : List α) (p : α → Bool) : Option α :=
  match l.filter p with
  | [x] => some x
  | _ => none

/-- JS truthiness of a string value: only the empty string is falsy. -/
def truthy (s : String) : Bool := s ≠ ""

/-- Numeric value of a list of decimal digit characters. -/
def digitsVal (l : List Char) : Nat :=
  l.foldl (fun a c => a * 10 + (c.toNat - 48)) 0

/-- Model of JS `parseInt(s, 10)`: skip leading whitespace, read an
optional sign and a maximal decimal-digit prefix; `none` models the
`NaN` result for inputs that start with no digit. -/
def parseIntJS (s : String) : Option Int :=
  let t := s.data.dropWhile Char.isWhitespace
  let (sign, rest) :=
    match t with
    | '-' :: r => ((-1 : Int), r)
    | '+' :: r => ((1 : Int), r)
    | r => ((1 : Int), r)
  let ds := rest.takeWhile Char.isDigit
  if ds.isEmpty then none else some (sign * (digitsVal ds : Int))

/-- Embeds `searchParams.get(k) || dflt`: a missing or empty parameter
falls back to the default string. -/
def paramOr (v : Option String) (dflt : String) : String :=
  match v with
  | some s => if truthy s then s else dflt
  | none => dflt

/-- Embeds the guard `limit < 1 || limit > 50`.  In JS both comparisons
are false when `limit` is `NaN` (modelled by `none`), so a `NaN` limit
passes the guard. -/
def limitOutOfRangeJS : Option Int → Bool
  | some n => decide (n < 1) || decide (n > 50)
  | none => false

/-- Model of JS `String.prototype.trim`: strip whitespace from both ends. -/
def trimJS (s : String) : String :=
  String.mk (((s.data.dropWhile Char.isWhitespace).reverse.dropWhile Char.isWhitespace).reverse)

/-- Embeds the JS expression `caption?.trim() || null` applied to an
optional caption string: trims, and coalesces the empty result to null. -/
def trimOrNull : Option String → Option String
  | some s => if trimJS s = "" then none else some (trimJS s)
  | none => none

/-- Message tag, one constructor per distinct response message string of
the handlers (the source strings are elided; distinct constructors stand
for distinct messages). -/
inductive Msg where
  | ok
  | unauthorized
  | userNotFound
  | postNotFound
  | forbidden
  | captionNotString
  | captionTooLong
  | updateFailed
  | internalError
  | limitOutOfRange
  | fetchPostsFailed
  | imageRequired
  | invalidFileType
  | sizeExceeded
  | storageConfigError
  | bucketNotFound
  | uploadFailed
  | insertFailed
  | postIdRequired
  | alreadyLiked
  | likeFailed
  | followingIdRequired
  | cannotFollowSelf
  | targetUserNotFound
  | alreadyFollowing
  | followFailed
deriving DecidableEq, Repr

/-- Insert into a list kept in descending `key` order (stable, greatest first). -/
def insertDescBy (key : α → Nat) (r : α) : List α → List α
  | [] => [r]
  | x :: xs => if key x ≤ key r then r :: x :: xs else x :: insertDescBy key r xs

/-- Sort a list into descending `key` order (models `.order(col, { ascending: false })`). -/
def sortDescBy (key : α → Nat) : List α → List α
  | [] => []
  | x :: xs => insertDescBy key x (sortDescBy key xs)

/-- Insert into a list kept in ascending `key` order. -/
def insertAscBy (key : α → Nat) (r : α) : List α → List α
  | [] => [r]
  | x :: xs => if key r ≤ key x then r :: x :: xs else x :: insertAscBy key r xs

/-- Sort a list into ascending `key` order (models `.order(col, { ascending: true })`). -/
def sortAscBy (key : α → Nat) : List α → List α
  | [] => []
  | x :: xs => insertAscBy key x (sortAscBy key xs)

/-- A row of the `post_stats` view for one post. Modelled from the spec:
the view is a read-only aggregation computed by the storage layer
("post statistics (like count, comment count per post) ... computed by
the storage layer"). -/
structure PostStatsRow where
  post_id : String
  user_id : String
  image_url : String
  caption : Option String
  created_at : Nat
  likes_count : Nat
  comments_count : Nat
deriving DecidableEq, Repr

/-- The `post_stats` row derived from one `posts` row. -/
def postStatsOf (w : World) (p : PostRow) : PostStatsRow :=
  ⟨p.id, p.user_id, p.image_url, p.caption, p.created_at,
   (w.likes.filter (fun l => l.1 == p.id)).length,
   (w.comments.filter (fun c => c.post_id == p.id)).length⟩

/-- The `post_stats` view of the store. -/
def post_stats (w : World) : List PostStatsRow :=
  w.posts.map (postStatsOf w)

/-- The author filter of the feed query: `.eq("user_id", userId)` is added
only when the `userId` parameter is truthy. -/
def feedMatches (userId : Option String) (r : PostStatsRow) : Bool :=
  match userId with
  | some uid => if truthy uid then r.user_id == uid else true
  | none => true

/-- The filtered, recency-ordered `post_stats` rows the feed query ranges
over; its length is the query's exact `count`. -/
def matchingStats (w : World) (userId : Option String) : List PostStatsRow :=
  sortDescBy PostStatsRow.created_at ((post_stats w).filter (feedMatches userId))

/-- A comment as serialized in feed / detail responses. -/
structure RespComment where
  id : String
  post_id : String
  user_id : String
  content : String
  created_at : Nat
  updated_at : Nat
  user_name : String
  user_clerk_id : String
deriving DecidableEq, Repr

/-- A post as serialized in feed / detail responses. -/
structure RespPost where
  post_id : String
  user_id : String
  image_url : String
  caption : Option String
  created_at : Nat
  likes_count : Nat
  comments_count : Nat
  user_name : String
  user_clerk_id : String
  comments : List RespComment
  is_liked : Bool
deriving DecidableEq, Repr

/-- Outcomes of the external calls made by `GET /api/posts`: the Clerk
auth result and one failure flag per Supabase query that can fail
independently of the store's contents. -/
structure FeedEnv where
  clerkUserId : Option String
  postsFail : Bool
  usersFail : Bool
  commentsFail : Bool
  commentUsersFail : Bool
  currentUserFail : Bool
  likesFail : Bool
deriving DecidableEq, Repr

/-- Request to `GET /api/posts`.  `limit` is the raw `limit` query
parameter; `offset` is the offset parameter, already parsed (the model
covers requests whose offset denotes a nonnegative integer; the code's
default is 0). -/
structure FeedReq where
  limit : Option String
  offset : Nat
  userId : Option String
deriving DecidableEq, Repr

/-- Response of `GET /api/posts`.  `queried` records whether the
`post_stats` query was issued. -/
structure FeedResult where
  status : Nat
  msg : Msg
  posts : List RespPost
  total : Nat
  hasMore : Bool
  queried : Bool
deriving DecidableEq, Repr

/-- Lookup in the user map built from an `.in("id", ids)` query result
(`none` when that query failed and the map stayed empty). -/
def findUser (usersData : Option (List UserRow)) (uid : String) : Option UserRow :=
  match usersData with
  | none => none
  | some us => us.find? (fun u => u.id == uid)

/-- The up-to-2 most recent comments of a post, taken from the
recency-ordered comments data as the grouping loop does. -/
def commentsFor (commentsData : List CommentRow) (pid : String) : List CommentRow :=
  (commentsData.filter (fun c => c.post_id == pid)).take 2

/-- Serialization of one comment with author enrichment; a missing
author renders as "Unknown" with an empty handle. -/
def serializeComment (commentUsers : Option (List UserRow)) (c : CommentRow) : RespComment :=
  let cu := findUser commentUsers c.user_id
  ⟨c.id, c.post_id, c.user_id, c.content, c.created_at, c.updated_at,
   (cu.map (fun u => u.name)).getD "Unknown",
   (cu.map (fun u => u.clerk_id)).getD ""⟩

/-- The liked-post-id set of the feed request's caller: empty unless the
caller is authenticated, resolves to a user row, and the likes query
succeeds. -/
def likedPostIdsOf (w : World) (env : FeedEnv) (postIds : List String) : List String :=
  match env.clerkUserId with
  | none => []
  | some cid =>
    let currentUserData :=
      if env.currentUserFail then none
      else singleBy w.users (fun u => u.clerk_id == cid)
    match currentUserData with
    | none => []
    | some cu =>
      if env.likesFail then []
      else (w.likes.filter
        (fun l => l.2 == cu.id && postIds.contains l.1)).map (fun l => l.1)

/-- Shallow embedding of `GET /api/posts` (src/app/api/posts/route.ts). -/
def GETposts (w : World) (req : FeedReq) (env : FeedEnv) : FeedResult :=
  let limitNum := parseIntJS (paramOr req.limit "10")
  if limitOutOfRangeJS limitNum then
    ⟨400, .limitOutOfRange, [], 0, false, false⟩
  else
    match limitNum with
    | none =>
      -- a NaN page bound reaches `.range(offset, NaN)`; modelled from the
      -- spec's store as a rejected query, i.e. the handler's 500 branch
      ⟨500, .fetchPostsFailed, [], 0, false, true⟩
    | some n =>
      if env.postsFail then ⟨500, .fetchPostsFailed, [], 0, false, true⟩
      else
        let rows := matchingStats w req.userId
        let total := rows.length
        let postsData := (rows.drop req.offset).take n.toNat
        if postsData.isEmpty then
          ⟨200, .ok, [], total, false, true⟩
        else
          let postIds := postsData.map (fun r => r.post_id)
          let usersData :=
            if env.usersFail then none
            else some (w.users.filter (fun u => (postsData.map (fun r => r.user_id)).contains u.id))
          let commentsData :=
            if env.commentsFail then none
            else some (sortDescBy CommentRow.created_at
              (w.comments.filter (fun c => postIds.contains c.post_id)))
          let commentUsersData :=
            if env.commentUsersFail then none
            else some (w.users.filter
              (fun u => ((commentsData.getD []).map (fun c => c.user_id)).contains u.id))
          let likedPostIds := likedPostIdsOf w env postIds
          let posts := postsData.map (fun r =>
            let user := findUser usersData r.user_id
            ({ post_id := r.post_id
               user_id := r.user_id
               image_url := r.image_url
               caption := r.caption
               created_at := r.created_at
               likes_count := r.likes_count
               comments_count := r.comments_count
               user_name := (user.map (fun u => u.name)).getD "Unknown"
               user_clerk_id := (user.map (fun u => u.clerk_id)).getD ""
               comments := (commentsFor (commentsData.getD []) r.post_id).map
                 (serializeComment commentUsersData)
               is_liked := likedPostIds.contains r.post_id } : RespPost))
          ⟨200, .ok, posts, total, decide ((req.offset : Int) + n < (total : Int)), true⟩

/-- Outcomes of the external calls made by `GET /api/posts/[postId]`. -/
structure DetailEnv where
  clerkUserId : Option String
  postFail : Bool
  userFail : Bool
  commentsFail : Bool
  commentUsersFail : Bool
  currentUserFail : Bool
  likeFail : Bool
deriving DecidableEq, Repr

/-- Response of `GET /api/posts/[postId]`. -/
structure DetailResult where
  status : Nat
  msg : Msg
  post : Option RespPost
deriving DecidableEq, Repr

/-- Shallow embedding of `GET /api/posts/[postId]`
(src/app/api/posts/[postId]/route.ts). -/
def GETpostDetail (w : World) (postId : String) (env : DetailEnv) : DetailResult :=
  let postData :=
    if env.postFail then none
    else singleBy (post_stats w) (fun r => r.post_id == postId)
  match postData with
  | none => ⟨404, .postNotFound, none⟩
  | some postData =>
    let userData :=
      if env.userFail then none
      else singleBy w.users (fun u => u.id == postData.user_id)
    match userData with
    | none => ⟨404, .userNotFound, none⟩
    | some userData =>
      let commentsData :=
        if env.commentsFail then none
        else some (sortAscBy CommentRow.created_at
          (w.comments.filter (fun c => c.post_id == postId)))
      let commentUsersData :=
        if env.commentUsersFail then none
        else some (w.users.filter
          (fun u => ((commentsData.getD []).map (fun c => c.user_id)).contains u.id))
      let isLiked :=
        match env.clerkUserId with
        | none => false
        | some cid =>
          let currentUserData :=
            if env.currentUserFail then none
            else singleBy w.users (fun u => u.clerk_id == cid)
          match currentUserData with
          | none => false
          | some cu =>
            if env.likeFail then false
            else (singleBy w.likes (fun l => l.1 == postId && l.2 == cu.id)).isSome
      let comments := (commentsData.getD []).map (serializeComment commentUsersData)
      ⟨200, .ok, some
        { post_id := postData.post_id
          user_id := postData.user_id
          image_url := postData.image_url
          caption := postData.caption
          created_at := postData.created_at
          likes_count := postData.likes_count
          comments_count := postData.comments_count
          user_name := userData.name
          user_clerk_id := userData.clerk_id
          comments := comments
          is_liked := isLiked }⟩

/-- The `caption` field of a successfully parsed `PATCH /api/posts/[postId]`
JSON body: absent, JSON null, a string, or a non-string value. -/
inductive CaptionField where
  | absent
  | nullv
  | str (s : String)
  | nonString
deriving DecidableEq, Repr

/-- The caption validation of the PATCH handler: a non-string caption or a
string longer than 2200 characters is rejected with the corresponding
message; absent and null captions pass. -/
def captionInvalid : CaptionField → Option Msg
  | .nonString => some .captionNotString
  | .str s => if s.length > 2200 then some .captionTooLong else none
  | _ => none

/-- The value written by `caption?.trim() || null` for each body shape. -/
def patchedCaption : CaptionField → Option String
  | .str s => if trimJS s = "" then none else some (trimJS s)
  | _ => none

/-- Outcomes of the external calls made by `PATCH /api/posts/[postId]`:
the Clerk auth result, the parsed body (`none` when `request.json()`
threw), and a failure flag for the update statement. -/
structure PatchEnv where
  clerkUserId : Option String
  body : Option CaptionField
  updateFail : Bool
deriving DecidableEq, Repr

/-- Response of `PATCH /api/posts/[postId]` together with the resulting store. -/
structure PatchResult where
  status : Nat
  msg : Msg
  world : World
  post : Option PostRow
deriving DecidableEq, Repr

/-- Shallow embedding of `PATCH /api/posts/[postId]`
(src/app/api/posts/[postId]/route.ts). -/
def PATCHpost (w : World) (postId : String) (env : PatchEnv) : PatchResult :=
  match env.clerkUserId with
  | none => ⟨401, .unauthorized, w, none⟩
  | some cid =>
    match env.body with
    | none => ⟨500, .internalError, w, none⟩
    | some caption =>
      match captionInvalid caption with
      | some m => ⟨400, m, w, none⟩
      | none =>
        match singleBy w.users (fun u => u.clerk_id == cid) with
        | none => ⟨404, .userNotFound, w, none⟩
        | some currentUserData =>
          match singleBy w.posts (fun p => p.id == postId) with
          | none => ⟨404, .postNotFound, w, none⟩
          | some postData =>
            if postData.user_id ≠ currentUserData.id then
              ⟨403, .forbidden, w, none⟩
            else if env.updateFail then
              ⟨500, .updateFailed, w, none⟩
            else
              let updated := { postData with caption := patchedCaption caption }
              ⟨200, .ok,
               { w with posts := w.posts.map (fun p =>
                   if p.id == postId then { p with caption := patchedCaption caption } else p) },
               some updated⟩

/-- An uploaded file as seen through the FormData API: name, MIME type, byte size. -/
structure ImgFile where
  name : String
  type : String
  size : Nat
deriving DecidableEq, Repr

/-- Request to `POST /api/posts`: the `image` and `caption` form fields. -/
structure CreateReq where
  image : Option ImgFile
  caption : Option String
deriving DecidableEq, Repr

/-- The two storage-upload failure modes the handler distinguishes. -/
inductive UploadErr where
  | bucketMissing
  | other
deriving DecidableEq, Repr

/-- Outcomes of the external calls made by `POST /api/posts`.
`buckets` is the `listBuckets` result (`none` models its error, which the
handler only logs); `timestamp` and `random` feed the generated storage
key; `removeFail` is the outcome of the cleanup deletion, which the
handler discards. -/
structure CreateEnv where
  clerkUserId : Option String
  formDataFail : Bool
  userFail : Bool
  serviceRoleFail : Bool
  buckets : Option (List String)
  timestamp : Nat
  random : String
  uploadErr : Option UploadErr
  removeFail : Bool
  insertFail : Bool
deriving DecidableEq, Repr

/-- Response of `POST /api/posts`, with the resulting store and the
storage keys successfully uploaded / passed to the cleanup deletion. -/
structure CreateResult where
  status : Nat
  msg : Msg
  world : World
  uploaded : List String
  removed : List String
  post : Option PostRow
deriving DecidableEq, Repr

/-- Splitting a character list at the '.' separator, as `split(".")` does
(an empty input yields one empty field). -/
def splitDot : List Char → List (List Char)
  | [] => [[]]
  | c :: cs =>
    let r := splitDot cs
    if c = '.' then [] :: r
    else
      match r with
      | [] => [[c]]
      | h :: t => (c :: h) :: t

/-- Embeds `imageFile.name.split(".").pop() || "jpg"`. -/
def fileExtOf (name : String) : String :=
  let l := String.mk ((splitDot name.data).getLastD [])
  if l = "" then "jpg" else l

/-- The generated storage key `userId/timestamp-random.ext`. -/
def fileNameOf (userId : String) (timestamp : Nat) (random : String) (imgName : String) : String :=
  userId ++ "/" ++ toString timestamp ++ "-" ++ random ++ "." ++ fileExtOf imgName

/-- Public-URL prefix of the `posts` storage bucket. -/
def storagePublicBase : String :=
  "https://example.supabase.co/storage/v1/object/public/posts/"

/-- The public URL returned by `getPublicUrl` for a storage key. -/
def publicUrlOf (k : String) : String := storagePublicBase ++ k

/-- Modelled from the spec: the store assigns the inserted post row its id
and creation timestamp ("rows in a managed relational store"); the model
generates the id from the store's `nextId` seed. -/
def insertPost (w : World) (uid url : String) (cap : Option String) (ts : Nat) :
    World × PostRow :=
  let row : PostRow := ⟨"post-" ++ toString w.nextId, uid, url, cap, ts⟩
  ({ w with posts := row :: w.posts, nextId := w.nextId + 1 }, row)

/-- The allowed upload MIME types. -/
def allowedMimeTypes : List String :=
  ["image/jpeg", "image/png", "image/webp", "image/gif"]

/-- Shallow embedding of `POST /api/posts` (src/app/api/posts/route.ts). -/
def POSTposts (w : World) (req : CreateReq) (env : CreateEnv) : CreateResult :=
  match env.clerkUserId with
  | none => ⟨401, .unauthorized, w, [], [], none⟩
  | some cid =>
    if env.formDataFail then ⟨500, .internalError, w, [], [], none⟩
    else
      match req.image with
      | none => ⟨400, .imageRequired, w, [], [], none⟩
      | some imageFile =>
        if ¬ allowedMimeTypes.contains imageFile.type then
          ⟨400, .invalidFileType, w, [], [], none⟩
        else if imageFile.size > 5 * 1024 * 1024 then
          ⟨400, .sizeExceeded, w, [], [], none⟩
        else if (match req.caption with
                 | some c => truthy c && c.length > 2200
                 | none => false) then
          ⟨400, .captionTooLong, w, [], [], none⟩
        else
          match singleBy w.users (fun u => u.clerk_id == cid), env.userFail with
          | none, _ => ⟨404, .userNotFound, w, [], [], none⟩
          | some _, true => ⟨404, .userNotFound, w, [], [], none⟩
          | some userData, false =>
            if env.serviceRoleFail then ⟨500, .storageConfigError, w, [], [], none⟩
            else
              if (match env.buckets with
                  | some bs => !(bs.contains "posts")
                  | none => false) then
                ⟨500, .bucketNotFound, w, [], [], none⟩
              else
                let fileName := fileNameOf userData.id env.timestamp env.random imageFile.name
                match env.uploadErr with
                | some .bucketMissing => ⟨500, .bucketNotFound, w, [], [], none⟩
                | some .other => ⟨500, .uploadFailed, w, [], [], none⟩
                | none =>
                  let publicUrl := publicUrlOf fileName
                  if env.insertFail then
                    ⟨500, .insertFailed, w, [fileName], [fileName], none⟩
                  else
                    let wr := insertPost w userData.id publicUrl (trimOrNull req.caption) env.timestamp
                    ⟨200, .ok, wr.1, [fileName], [], some wr.2⟩

/-- Outcomes of the external calls made by `POST /api/likes`: the Clerk
auth result, whether `request.json()` threw, the body's `postId` field,
and failure flags for the user lookup and for a non-duplicate insert
failure. -/
structure LikeEnv where
  clerkUserId : Option String
  jsonFail : Bool
  bodyPostId : Option String
  userFail : Bool
  insertFail : Bool
deriving DecidableEq, Repr

/-- Response of `POST /api/likes` with the resulting store. -/
structure LikeResult where
  status : Nat
  msg : Msg
  world : World
deriving DecidableEq, Repr

/-- Modelled from the spec: inserting a `likes` row violating the
`(post, user)` uniqueness constraint is rejected by the store with a
duplicate-key conflict ("uniqueness on (post,user) for likes ... is
enforced by the store, surfaced to the app as a conflict error"). -/
def likeInsertConflict (w : World) (postId uid : String) : Bool :=
  decide ((postId, uid) ∈ w.likes)

/-- Shallow embedding of `POST /api/likes` (src/app/api/likes/route.ts). -/
def POSTlikes (w : World) (env : LikeEnv) : LikeResult :=
  match env.clerkUserId with
  | none => ⟨401, .unauthorized, w⟩
  | some cid =>
    if env.jsonFail then ⟨500, .internalError, w⟩
    else
      match env.bodyPostId with
      | none => ⟨400, .postIdRequired, w⟩
      | some postId =>
        if ¬ truthy postId then ⟨400, .postIdRequired, w⟩
        else
          match singleBy w.users (fun u => u.clerk_id == cid), env.userFail with
          | none, _ => ⟨404, .userNotFound, w⟩
          | some _, true => ⟨404, .userNotFound, w⟩
          | some userData, false =>
            if likeInsertConflict w postId userData.id then
              ⟨409, .alreadyLiked, w⟩
            else if env.insertFail then ⟨500, .likeFailed, w⟩
            else ⟨200, .ok, { w with likes := (postId, userData.id) :: w.likes }⟩

/-- Outcomes of the external calls made by `POST /api/follows`.  The body
parse cannot throw (`.catch(() => ({}))`), so only the field value
appears; `targetFail` is a failure of the followee lookup. -/
structure FollowEnv where
  clerkUserId : Option String
  userFail : Bool
  bodyFollowingId : Option String
  targetFail : Bool
  insertFail : Bool
deriving DecidableEq, Repr

/-- Response of `POST /api/follows` with the resulting store. -/
structure FollowResult where
  status : Nat
  msg : Msg
  world : World
deriving DecidableEq, Repr

/-- Modelled from the spec: inserting a `follows` row violating the
`(follower, followee)` uniqueness constraint is rejected by the store
with a duplicate-key conflict ("(follower,followee) for follows is
enforced by the store, surfaced to the app as a conflict error"). -/
def followInsertConflict (w : World) (followerId followingId : String) : Bool :=
  decide ((followerId, followingId) ∈ w.follows)

/-- Shallow embedding of `POST /api/follows` (src/app/api/follows/route.ts). -/
def POSTfollows (w : World) (env : FollowEnv) : FollowResult :=
  match env.clerkUserId with
  | none => ⟨401, .unauthorized, w⟩
  | some cid =>
    match singleBy w.users (fun u => u.clerk_id == cid), env.userFail with
    | none, _ => ⟨404, .userNotFound, w⟩
    | some _, true => ⟨404, .userNotFound, w⟩
    | some currentUserData, false =>
      match env.bodyFollowingId with
      | none => ⟨400, .followingIdRequired, w⟩
      | some followingId =>
        if ¬ truthy followingId then ⟨400, .followingIdRequired, w⟩
        else if currentUserData.id == followingId then
          ⟨400, .cannotFollowSelf, w⟩
        else
          match singleBy w.users (fun u => u.id == followingId), env.targetFail with
          | none, _ => ⟨404, .targetUserNotFound, w⟩
          | some _, true => ⟨404, .targetUserNotFound, w⟩
          | some _, false =>
            if followInsertConflict w currentUserData.id followingId then
              ⟨409, .alreadyFollowing, w⟩
            else if env.insertFail then ⟨500, .followFailed, w⟩
            else ⟨200, .ok,
              { w with follows := (currentUserData.id, followingId) :: w.follows }⟩

/-- The store's exact count of `post_stats` rows matching the author filter. -/
def matchingCount (w : World) (userId : Option String) : Nat :=
  ((post_stats w).filter (feedMatches userId)).length

/-- Example user Alice (internal id u1, Clerk id c1). -/
def uAlice : UserRow := ⟨"u1", "c1", "Alice"⟩

/-- Example user Bob (internal id u2, Clerk id c2). -/
def uBob : UserRow := ⟨"u2", "c2", "Bob"⟩

/-- An example post owned by Bob. -/
def pBob : PostRow := ⟨"p1", "u2", "https://img.example/1.jpg", some "hello", 5⟩

/-- A small example store: Alice, Bob, and one post owned by Bob. -/
def wBase : World := ⟨[uAlice, uBob], [pBob], [], [], [], 0⟩

/-- An empty store that only knows Alice; used for creation round-trips. -/
def wCreate : World := ⟨[uAlice], [], [], [], [], 0⟩

/-- A feed environment with no authentication and no query failures. -/
def feedEnvOk : FeedEnv := ⟨none, false, false, false, false, false, false⟩

/-- A detail environment with no authentication and no query failures. -/
def envDetailOk : DetailEnv := ⟨none, false, false, false, false, false, false⟩

/-- A creation environment in which every external call succeeds. -/
def envCreateOk : CreateEnv :=
  ⟨some "c1", false, false, false, some ["posts"], 7, "r", none, false, false⟩

/-- A string of 2201 space characters: whitespace-only, yet longer than
the 2200-character caption limit. -/
def spaces2201 : String := String.mk (List.replicate 2201 ' ')

/-- A creation request whose submitted caption carries leading whitespace. -/
def reqTrim : CreateReq := ⟨some ⟨"a.jpg", "image/jpeg", 100⟩, some " a"⟩

/-- A store in which Alice already likes post p1 and already follows Bob. -/
def wDup : World := ⟨[uAlice, uBob], [pBob], [], [("p1", "u1")], [("u1", "u2")], 0⟩

/-- C1 counterexample: in `wBase` the caller Alice (Clerk id c1) is
authenticated and is not the owner of post p1 (owned by Bob), yet a PATCH
whose body carries a non-string caption is answered 400, not 403: the
caption validation runs before the ownership check. -/
theorem patch_nonowner_invalid_payload_not_403 :
    (PATCHpost wBase "p1" ⟨some "c1", some .nonString, false⟩).status = 400 ∧
    (PATCHpost wBase "p1" ⟨some "c1", some .nonString, false⟩).status ≠ 403 := by
  constructor <;> decide

/-- C1 amended: a PATCH /posts/[postId] by an authenticated non-owner is
answered 403 (with the store unchanged) whenever the body's caption field
passes validation (absent, null, or a string of at most 2200 characters);
a body failing caption validation is answered 400 instead. -/
theorem patch_nonowner_valid_payload_403 (w : World) (postId : String)
    (env : PatchEnv) (cid : String) (f : CaptionField) (cu : UserRow) (pd : PostRow)
    (hauth : env.clerkUserId = some cid)
    (hbody : env.body = some f)
    (hvalid : captionInvalid f = none)
    (huser : singleBy w.users (fun u => u.clerk_id == cid) = some cu)
    (hpost : singleBy w.posts (fun p => p.id == postId) = some pd)
    (hown : pd.user_id ≠ cu.id) :
    (PATCHpost w postId env).status = 403 ∧ (PATCHpost w postId env).world = w := by
  simp only [PATCHpost, hauth, hbody, hvalid, huser, hpost]
  rw [if_pos hown]
  exact ⟨rfl, rfl⟩

/-- Witness for the amended C1 theorem at a concrete store and request. -/
theorem patch_nonowner_valid_payload_403_witness :
    (PATCHpost wBase "p1" ⟨some "c1", some (.str "hi"), false⟩).status = 403 ∧
    (PATCHpost wBase "p1" ⟨some "c1", some (.str "hi"), false⟩).world = wBase :=
  patch_nonowner_valid_payload_403 wBase "p1" ⟨some "c1", some (.str "hi"), false⟩
    "c1" (.str "hi") uAlice pBob rfl rfl (by decide) (by decide) (by decide) (by decide)

/-- C10 counterexample: the owner Bob PATCHes post p1 with a caption of
2201 spaces — a string that is whitespace-only after trimming — and the
handler answers 400 with the store unchanged: the stored caption is not
set to null because the length check fires first. -/
theorem patch_long_whitespace_caption_not_cleared :
    (PATCHpost wBase "p1" ⟨some "c2", some (.str spaces2201), false⟩).status = 400 ∧
    (PATCHpost wBase "p1" ⟨some "c2", some (.str spaces2201), false⟩).world = wBase := by
  have hlen : spaces2201.length = 2201 := by
    rw [spaces2201, String.length_mk, List.length_replicate]
  have hinv : captionInvalid (.str spaces2201) = some .captionTooLong := by
    simp [captionInvalid, hlen]
  constructor <;> simp [PATCHpost, hinv]

/-- C10 amended: for a PATCH by the owner whose parsed body's caption
field is absent, null, or a string of at most 2200 characters that trims
to empty, the update stores a null caption: the response row and every
stored row with that post id have caption none. -/
theorem patch_owner_empty_caption_clears (w : World) (postId : String)
    (env : PatchEnv) (cid : String) (f : CaptionField) (cu : UserRow) (pd : PostRow)
    (hauth : env.clerkUserId = some cid)
    (hbody : env.body = some f)
    (hvalid : captionInvalid f = none)
    (hempty : patchedCaption f = none)
    (huser : singleBy w.users (fun u => u.clerk_id == cid) = some cu)
    (hpost : singleBy w.posts (fun p => p.id == postId) = some pd)
    (hown : pd.user_id = cu.id)
    (hupd : env.updateFail = false) :
    (PATCHpost w postId env).status = 200 ∧
    (PATCHpost w postId env).post = some { pd with caption := none } ∧
    ∀ p ∈ (PATCHpost w postId env).world.posts, p.id = postId → p.caption = none := by
  simp only [PATCHpost, hauth, hbody, hvalid, huser, hpost, hown, hupd]
  rw [if_neg (by simp [hown]), if_neg (by simp)]
  refine ⟨rfl, by rw [hempty], ?_⟩
  intro p hp hpid
  simp only [List.mem_map] at hp
  obtain ⟨q, _, hq⟩ := hp
  by_cases hid : q.id == postId
  · rw [if_pos hid] at hq
    rw [← hq, hempty]
  · rw [if_neg hid] at hq
    exact absurd (by rw [← hq] at hpid; exact hpid) (by simpa using hid)

/-- Witness for the amended C10 theorem: Bob clears the caption of his
post p1 with a body whose caption field is absent. -/
theorem patch_owner_empty_caption_clears_witness :
    (PATCHpost wBase "p1" ⟨some "c2", some .absent, false⟩).status = 200 ∧
    (PATCHpost wBase "p1" ⟨some "c2", some .absent, false⟩).post =
      some ⟨"p1", "u2", "https://img.example/1.jpg", none, 5⟩ :=
  ⟨(patch_owner_empty_caption_clears wBase "p1" ⟨some "c2", some .absent, false⟩
      "c2" .absent uBob pBob rfl rfl rfl rfl (by decide) (by decide) (by decide) rfl).1,
   (patch_owner_empty_caption_clears wBase "p1" ⟨some "c2", some .absent, false⟩
      "c2" .absent uBob pBob rfl rfl rfl rfl (by decide) (by decide) (by decide) rfl).2.1⟩

/-- C6: a POST /follows whose followingId equals the caller's own internal
user id is answered 400 and no follow row is inserted (the store is
unchanged).  A caller whose authentication does not resolve to an internal
user row has no internal user id, so every request instantiating the
claim's premise is of this shape. -/
theorem follow_self_rejected_400 (w : World) (env : FollowEnv) (cid : String) (u : UserRow)
    (hauth : env.clerkUserId = some cid)
    (huser : singleBy w.users (fun x => x.clerk_id == cid) = some u)
    (hufail : env.userFail = false)
    (hbody : env.bodyFollowingId = some u.id) :
    (POSTfollows w env).status = 400 ∧ (POSTfollows w env).world = w := by
  simp only [POSTfollows, hauth, huser, hufail, hbody]
  by_cases ht : truthy u.id
  · rw [if_neg (by simp [ht]), if_pos (by simp)]
    exact ⟨rfl, rfl⟩
  · rw [if_pos (by simpa using ht)]
    exact ⟨rfl, rfl⟩

/-- Witness for C6: Alice (internal id u1) asks to follow u1. -/
theorem follow_self_rejected_400_witness :
    (POSTfollows wBase ⟨some "c1", false, some "u1", false, false⟩).status = 400 ∧
    (POSTfollows wBase ⟨some "c1", false, some "u1", false, false⟩).world = wBase :=
  follow_self_rejected_400 wBase ⟨some "c1", false, some "u1", false, false⟩
    "c1" uAlice rfl (by decide) rfl rfl

/-- C3: an insert that violates the store's uniqueness constraint is
answered 409 with the endpoint's distinct already-exists message (the
`alreadyLiked` respectively `alreadyFollowing` message, not the generic
500 insert-failure message), for both the like and the follow toggle; and
two sequential POST /follows for the same followee by the same user yield
first 200 then 409. -/
theorem duplicate_insert_conflict_409 :
    (∀ (w : World) (env : LikeEnv) (cid postId : String) (u : UserRow),
      env.clerkUserId = some cid → env.jsonFail = false →
      env.bodyPostId = some postId → truthy postId = true →
      singleBy w.users (fun x => x.clerk_id == cid) = some u →
      env.userFail = false →
      (postId, u.id) ∈ w.likes →
      (POSTlikes w env).status = 409 ∧ (POSTlikes w env).msg = .alreadyLiked) ∧
    (∀ (w : World) (env : FollowEnv) (cid fid : String) (u t : UserRow),
      env.clerkUserId = some cid →
      singleBy w.users (fun x => x.clerk_id == cid) = some u →
      env.userFail = false →
      env.bodyFollowingId = some fid → truthy fid = true →
      (u.id == fid) = false →
      singleBy w.users (fun x => x.id == fid) = some t →
      env.targetFail = false →
      (u.id, fid) ∈ w.follows →
      (POSTfollows w env).status = 409 ∧ (POSTfollows w env).msg = .alreadyFollowing) ∧
    (∀ (w : World) (env : FollowEnv) (cid fid : String) (u t : UserRow),
      env.clerkUserId = some cid →
      singleBy w.users (fun x => x.clerk_id == cid) = some u →
      env.userFail = false →
      env.bodyFollowingId = some fid → truthy fid = true →
      (u.id == fid) = false →
      singleBy w.users (fun x => x.id == fid) = some t →
      env.targetFail = false → env.insertFail = false →
      (u.id, fid) ∉ w.follows →
      (POSTfollows w env).status = 200 ∧
      (POSTfollows (POSTfollows w env).world env).status = 409 ∧
      (POSTfollows (POSTfollows w env).world env).msg = .alreadyFollowing) := by
  refine ⟨?_, ?_, ?_⟩
  · intro w env cid postId u hauth hjson hbody ht huser hufail hmem
    have h : POSTlikes w env = ⟨409, .alreadyLiked, w⟩ := by
      simp [POSTlikes, hauth, hjson, hbody, huser, hufail, ht, likeInsertConflict, hmem]
    rw [h]
    exact ⟨rfl, rfl⟩
  · intro w env cid fid u t hauth huser hufail hbody ht hne htarget htfail hmem
    have h : POSTfollows w env = ⟨409, .alreadyFollowing, w⟩ := by
      simp [POSTfollows, hauth, huser, hufail, hbody, htarget, htfail, ht, hne,
        followInsertConflict, hmem]
    rw [h]
    exact ⟨rfl, rfl⟩
  · intro w env cid fid u t hauth huser hufail hbody ht hne htarget htfail hins hmem
    have h200 : POSTfollows w env =
        ⟨200, .ok, { w with follows := (u.id, fid) :: w.follows }⟩ := by
      simp [POSTfollows, hauth, huser, hufail, hbody, htarget, htfail, hins, ht, hne,
        followInsertConflict, hmem]
    have h409 : POSTfollows ({ w with follows := (u.id, fid) :: w.follows } : World) env =
        ⟨409, .alreadyFollowing, { w with follows := (u.id, fid) :: w.follows }⟩ := by
      simp [POSTfollows, hauth, huser, hufail, hbody, htarget, htfail, ht, hne,
        followInsertConflict]
    rw [h200]
    exact ⟨rfl, by rw [h409], by rw [h409]⟩

/-- Witness for C3 at concrete stores: Alice re-likes p1 and re-follows
Bob in `wDup`, and runs the two sequential follow calls from `wBase`. -/
theorem duplicate_insert_conflict_409_witness :
    (POSTlikes wDup ⟨some "c1", false, some "p1", false, false⟩).status = 409 ∧
    (POSTfollows wDup ⟨some "c1", false, some "u2", false, false⟩).status = 409 ∧
    (POSTfollows wBase ⟨some "c1", false, some "u2", false, false⟩).status = 200 ∧
    (POSTfollows (POSTfollows wBase ⟨some "c1", false, some "u2", false, false⟩).world
      ⟨some "c1", false, some "u2", false, false⟩).status = 409 :=
  ⟨(duplicate_insert_conflict_409.1 wDup ⟨some "c1", false, some "p1", false, false⟩
      "c1" "p1" uAlice rfl rfl rfl (by decide) (by decide) rfl (by decide)).1,
   (duplicate_insert_conflict_409.2.1 wDup ⟨some "c1", false, some "u2", false, false⟩
      "c1" "u2" uAlice uBob rfl (by decide) rfl rfl (by decide) (by decide)
      (by decide) rfl (by decide)).1,
   (duplicate_insert_conflict_409.2.2 wBase ⟨some "c1", false, some "u2", false, false⟩
      "c1" "u2" uAlice uBob rfl (by decide) rfl rfl (by decide) (by decide)
      (by decide) rfl rfl (by decide)).1,
   (duplicate_insert_conflict_409.2.2 wBase ⟨some "c1", false, some "u2", false, false⟩
      "c1" "u2" uAlice uBob rfl (by decide) rfl rfl (by decide) (by decide)
      (by decide) rfl rfl (by decide)).2.1⟩

/-- C4: for an authenticated POST /posts, (a) a JPEG larger than
5*1024*1024 bytes is answered 400 with the size-exceeded message, with no
upload, no cleanup deletion and the store unchanged; (b) a 4MB JPEG with
no caption field, when every external call succeeds, is answered 200 and
the created row has caption none. -/
theorem create_post_size_and_null_caption :
    (∀ (w : World) (req : CreateReq) (env : CreateEnv) (cid : String) (f : ImgFile),
      env.clerkUserId = some cid → env.formDataFail = false →
      req.image = some f → f.type = "image/jpeg" →
      5 * 1024 * 1024 < f.size →
      (POSTposts w req env).status = 400 ∧
      (POSTposts w req env).msg = .sizeExceeded ∧
      (POSTposts w req env).world = w ∧
      (POSTposts w req env).uploaded = [] ∧
      (POSTposts w req env).removed = []) ∧
    (∀ (w : World) (req : CreateReq) (env : CreateEnv) (cid : String) (f : ImgFile)
      (u : UserRow),
      env.clerkUserId = some cid → env.formDataFail = false →
      req.image = some f → f.type = "image/jpeg" →
      f.size = 4 * 1024 * 1024 → req.caption = none →
      singleBy w.users (fun x => x.clerk_id == cid) = some u →
      env.userFail = false → env.serviceRoleFail = false →
      (∀ bs, env.buckets = some bs → "posts" ∈ bs) →
      env.uploadErr = none → env.insertFail = false →
      (POSTposts w req env).status = 200 ∧
      ∃ row, (POSTposts w req env).post = some row ∧ row.caption = none ∧
        row ∈ (POSTposts w req env).world.posts) := by
  constructor
  · intro w req env cid f hauth hfd himg htype hsize
    have h : POSTposts w req env = ⟨400, .sizeExceeded, w, [], [], none⟩ := by
      simp [POSTposts, hauth, hfd, himg, htype, allowedMimeTypes, hsize]
    rw [h]
    exact ⟨rfl, rfl, rfl, rfl, rfl⟩
  · intro w req env cid f u hauth hfd himg htype hsize hcap huser hufail hsrv hbuck hup hins
    have h : POSTposts w req env =
        ⟨200, .ok,
         (insertPost w u.id (publicUrlOf (fileNameOf u.id env.timestamp env.random f.name))
           (trimOrNull req.caption) env.timestamp).1,
         [fileNameOf u.id env.timestamp env.random f.name], [],
         some (insertPost w u.id
           (publicUrlOf (fileNameOf u.id env.timestamp env.random f.name))
           (trimOrNull req.caption) env.timestamp).2⟩ := by
      cases hb : env.buckets with
      | none => simp [POSTposts, hauth, hfd, himg, htype, allowedMimeTypes, hsize, hcap,
          huser, hufail, hsrv, hb, hup, hins]
      | some bs => simp [POSTposts, hauth, hfd, himg, htype, allowedMimeTypes, hsize, hcap,
          huser, hufail, hsrv, hb, hbuck bs hb, hup, hins]
    rw [h]
    refine ⟨rfl, _, rfl, ?_, ?_⟩
    · rw [hcap]
      rfl
    · simp [insertPost]

/-- Witness for C4: both parts at the concrete store `wCreate`, with a
6MB and a 4MB JPEG respectively. -/
theorem create_post_size_and_null_caption_witness :
    (POSTposts wCreate ⟨some ⟨"a.jpg", "image/jpeg", 6 * 1024 * 1024⟩, none⟩
      envCreateOk).status = 400 ∧
    (POSTposts wCreate ⟨some ⟨"a.jpg", "image/jpeg", 6 * 1024 * 1024⟩, none⟩
      envCreateOk).msg = .sizeExceeded ∧
    (POSTposts wCreate ⟨some ⟨"a.jpg", "image/jpeg", 4 * 1024 * 1024⟩, none⟩
      envCreateOk).status = 200 :=
  ⟨(create_post_size_and_null_caption.1 wCreate
      ⟨some ⟨"a.jpg", "image/jpeg", 6 * 1024 * 1024⟩, none⟩ envCreateOk "c1"
      ⟨"a.jpg", "image/jpeg", 6 * 1024 * 1024⟩ rfl rfl rfl rfl (by decide)).1,
   (create_post_size_and_null_caption.1 wCreate
      ⟨some ⟨"a.jpg", "image/jpeg", 6 * 1024 * 1024⟩, none⟩ envCreateOk "c1"
      ⟨"a.jpg", "image/jpeg", 6 * 1024 * 1024⟩ rfl rfl rfl rfl (by decide)).2.1,
   (create_post_size_and_null_caption.2 wCreate
      ⟨some ⟨"a.jpg", "image/jpeg", 4 * 1024 * 1024⟩, none⟩ envCreateOk "c1"
      ⟨"a.jpg", "image/jpeg", 4 * 1024 * 1024⟩ uAlice rfl rfl rfl rfl rfl rfl
      (by decide) rfl rfl (fun bs hb => by cases hb; decide) rfl rfl).1⟩

/-- C5: when the storage upload succeeds and the posts-table insert fails,
the handler passes the key it uploaded to the cleanup deletion and
answers 500 with the store unchanged; the outcome of the cleanup deletion
(`removeFail`) is discarded, so it does not change the response. -/
theorem create_post_cleanup_on_insert_failure (w : World) (req : CreateReq)
    (env : CreateEnv) (cid : String) (f : ImgFile) (u : UserRow)
    (hauth : env.clerkUserId = some cid) (hfd : env.formDataFail = false)
    (himg : req.image = some f) (htype : f.type ∈ allowedMimeTypes)
    (hsize : f.size ≤ 5 * 1024 * 1024)
    (hcap : (match req.caption with
             | some c => truthy c && decide (c.length > 2200)
             | none => false) = false)
    (huser : singleBy w.users (fun x => x.clerk_id == cid) = some u)
    (hufail : env.userFail = false) (hsrv : env.serviceRoleFail = false)
    (hbuck : ∀ bs, env.buckets = some bs → "posts" ∈ bs)
    (hup : env.uploadErr = none) (hins : env.insertFail = true) :
    (POSTposts w req env).status = 500 ∧
    (POSTposts w req env).world = w ∧
    (POSTposts w req env).uploaded = [fileNameOf u.id env.timestamp env.random f.name] ∧
    (POSTposts w req env).removed = (POSTposts w req env).uploaded ∧
    (∀ b b', POSTposts w req { env with removeFail := b } =
      POSTposts w req { env with removeFail := b' }) := by
  have h : POSTposts w req env =
      ⟨500, .insertFailed, w, [fileNameOf u.id env.timestamp env.random f.name],
       [fileNameOf u.id env.timestamp env.random f.name], none⟩ := by
    cases hb : env.buckets with
    | none => simp [POSTposts, hauth, hfd, himg, huser, hufail, hsrv, hb, hup, hins,
        hcap, htype, Nat.not_lt.mpr hsize]
    | some bs => simp [POSTposts, hauth, hfd, himg, huser, hufail, hsrv, hb, hbuck bs hb,
        hup, hins, hcap, htype, Nat.not_lt.mpr hsize]
  rw [h]
  refine ⟨rfl, rfl, rfl, rfl, ?_⟩
  intro b b'
  cases env
  rfl

/-- Witness for C5 at the concrete store `wCreate`: the cleanup deletion
receives the uploaded key and the response is 500. -/
theorem create_post_cleanup_on_insert_failure_witness :
    (POSTposts wCreate ⟨some ⟨"a.jpg", "image/jpeg", 100⟩, none⟩
      ⟨some "c1", false, false, false, some ["posts"], 7, "r", none, false, true⟩).status = 500 ∧
    (POSTposts wCreate ⟨some ⟨"a.jpg", "image/jpeg", 100⟩, none⟩
      ⟨some "c1", false, false, false, some ["posts"], 7, "r", none, false, true⟩).removed =
    (POSTposts wCreate ⟨some ⟨"a.jpg", "image/jpeg", 100⟩, none⟩
      ⟨some "c1", false, false, false, some ["posts"], 7, "r", none, false, true⟩).uploaded :=
  ⟨(create_post_cleanup_on_insert_failure wCreate ⟨some ⟨"a.jpg", "image/jpeg", 100⟩, none⟩
      ⟨some "c1", false, false, false, some ["posts"], 7, "r", none, false, true⟩ "c1"
      ⟨"a.jpg", "image/jpeg", 100⟩ uAlice rfl rfl rfl (by decide) (by decide) rfl
      (by decide) rfl rfl (fun bs hb => by cases hb; decide) rfl rfl).1,
   (create_post_cleanup_on_insert_failure wCreate ⟨some ⟨"a.jpg", "image/jpeg", 100⟩, none⟩
      ⟨some "c1", false, false, false, some ["posts"], 7, "r", none, false, true⟩ "c1"
      ⟨"a.jpg", "image/jpeg", 100⟩ uAlice rfl rfl rfl (by decide) (by decide) rfl
      (by decide) rfl rfl (fun bs hb => by cases hb; decide) rfl rfl).2.2.2.1⟩

/-- Inserting into a descending-sorted list grows its length by one. -/
theorem length_insertDescBy (key : α → Nat) (r : α) (l : List α) :
    (insertDescBy key r l).length = l.length + 1 := by
  induction l with
  | nil => rfl
  | cons x xs ih =>
    rw [insertDescBy]
    split
    · rfl
    · simp [List.length_cons, ih]

/-- The descending sort preserves length. -/
theorem length_sortDescBy (key : α → Nat) (l : List α) :
    (sortDescBy key l).length = l.length := by
  induction l with
  | nil => rfl
  | cons x xs ih =>
    rw [sortDescBy, length_insertDescBy, ih]
    rfl

/-- The ordered row list the feed query ranges over has exactly the
store's matching count as its length. -/
theorem length_matchingStats (w : World) (userId : Option String) :
    (matchingStats w userId).length = matchingCount w userId := by
  rw [matchingStats, length_sortDescBy, matchingCount]

/-- C2: for every GET /posts whose limit parameter parses to an integer
in [1,50] and whose primary posts query succeeds, the response holds at
most limit posts, and hasMore is true iff offset + limit < total, where
total is the store's exact count of post_stats rows matching the
(optional) author filter. -/
theorem feed_pagination (w : World) (req : FeedReq) (env : FeedEnv) (n : Int)
    (hl : parseIntJS (paramOr req.limit "10") = some n)
    (h1 : 1 ≤ n) (h50 : n ≤ 50) (hq : env.postsFail = false) :
    (GETposts w req env).posts.length ≤ n.toNat ∧
    ((GETposts w req env).hasMore ↔
      req.offset + n.toNat < matchingCount w req.userId) := by
  have hguard : limitOutOfRangeJS (some n) = false := by
    simp only [limitOutOfRangeJS, Bool.or_eq_false_iff, decide_eq_false_iff_not, not_lt]
    omega
  by_cases he : ((matchingStats w req.userId).drop req.offset).take n.toNat = []
  · have hlen : (matchingStats w req.userId).length ≤ req.offset := by
      rcases List.take_eq_nil_iff.mp he with h0 | hnil
      · omega
      · exact List.drop_eq_nil_iff.mp hnil
    have h : GETposts w req env = ⟨200, .ok, [], (matchingStats w req.userId).length,
        false, true⟩ := by
      simp [GETposts, hguard, hl, hq, he]
    rw [h]
    refine ⟨by simp, ?_⟩
    rw [length_matchingStats] at hlen
    simp only [Bool.false_eq_true, false_iff, not_lt]
    omega
  · have h2 : ((matchingStats w req.userId).drop req.offset).take n.toNat ≠ [] := he
    constructor
    · have : (GETposts w req env).posts.length =
          (((matchingStats w req.userId).drop req.offset).take n.toNat).length := by
        simp [GETposts, hguard, hl, hq, h2]
      rw [this, List.length_take]
      omega
    · have : (GETposts w req env).hasMore =
          decide ((req.offset : Int) + n < ((matchingStats w req.userId).length : Int)) := by
        simp [GETposts, hguard, hl, hq, h2]
      rw [this, length_matchingStats]
      simp only [decide_eq_true_eq]
      omega

/-- Witness for C2: the feed of `wBase` with limit 10 and offset 0 holds
at most 10 posts and hasMore is false since 0 + 10 is not below total 1. -/
theorem feed_pagination_witness :
    (GETposts wBase ⟨some "10", 0, none⟩ feedEnvOk).posts.length ≤ (10 : Int).toNat ∧
    ((GETposts wBase ⟨some "10", 0, none⟩ feedEnvOk).hasMore ↔
      0 + (10 : Int).toNat < matchingCount wBase none) :=
  feed_pagination wBase ⟨some "10", 0, none⟩ feedEnvOk 10 (by decide)
    (by decide) (by decide) rfl

/-- C8 counterexample: a GET /posts whose limit parameter is the
non-numeric string "abc" parses to NaN, which passes the
`limit < 1 || limit > 50` guard (both comparisons are false for NaN), so
the request is not answered 400 and the store query is issued. -/
theorem feed_nan_limit_not_rejected :
    (GETposts wBase ⟨some "abc", 0, none⟩ feedEnvOk).queried = true ∧
    (GETposts wBase ⟨some "abc", 0, none⟩ feedEnvOk).status ≠ 400 := by
  constructor <;> decide

/-- C8 amended: a GET /posts whose limit parameter parses to an integer
outside [1,50] is rejected with 400 and no store query is issued; a
non-numeric limit, however, parses to NaN, passes the guard, and the
query is issued. -/
theorem feed_limit_out_of_range_rejected (w : World) (req : FeedReq) (env : FeedEnv)
    (n : Int)
    (hl : parseIntJS (paramOr req.limit "10") = some n)
    (hout : n < 1 ∨ 50 < n) :
    (GETposts w req env).status = 400 ∧ (GETposts w req env).queried = false := by
  have hguard : limitOutOfRangeJS (some n) = true := by
    simp only [limitOutOfRangeJS, Bool.or_eq_true, decide_eq_true_eq]
    omega
  have h : GETposts w req env = ⟨400, .limitOutOfRange, [], 0, false, false⟩ := by
    simp [GETposts, hl, hguard]
  rw [h]
  exact ⟨rfl, rfl⟩

/-- Witness for amended C8: limit 51 is rejected with 400, query not issued. -/
theorem feed_limit_out_of_range_rejected_witness :
    (GETposts wBase ⟨some "51", 0, none⟩ feedEnvOk).status = 400 ∧
    (GETposts wBase ⟨some "51", 0, none⟩ feedEnvOk).queried = false :=
  feed_limit_out_of_range_rejected wBase ⟨some "51", 0, none⟩ feedEnvOk 51
    (by decide) (Or.inr (by decide))

/-- C7 counterexample: in GET /posts/[postId] a failure of the post-author
lookup fails the primary response: on `wBase`'s post p1 with the author
query failing, the handler answers 404 with no post instead of degrading
the author to "Unknown". -/
theorem detail_author_lookup_failure_404 :
    (GETpostDetail wBase "p1" ⟨none, false, true, false, false, false, false⟩).status = 404 ∧
    (GETpostDetail wBase "p1" ⟨none, false, true, false, false, false, false⟩).post = none := by
  constructor <;> decide

/-- C7 amended: secondary enrichment failures degrade rather than fail:
in GET /posts a failure of the post-author and comment-author lookups
keeps the response 200 with every missing author substituted by "Unknown"
and an empty handle; in GET /posts/[postId] a failure of the
comment-author lookup keeps the response 200 with comment authors
substituted by "Unknown"; but a failure of the post-author lookup in
GET /posts/[postId] fails the request with 404 (see the counterexample). -/
theorem enrichment_failures_degrade :
    (∀ (w : World) (req : FeedReq) (env : FeedEnv) (n : Int),
      parseIntJS (paramOr req.limit "10") = some n → 1 ≤ n → n ≤ 50 →
      env.postsFail = false → env.usersFail = true → env.commentUsersFail = true →
      (GETposts w req env).status = 200 ∧
      ∀ p ∈ (GETposts w req env).posts,
        p.user_name = "Unknown" ∧ p.user_clerk_id = "" ∧
        ∀ c ∈ p.comments, c.user_name = "Unknown" ∧ c.user_clerk_id = "") ∧
    (∀ (w : World) (postId : String) (env : DetailEnv) (pd : PostStatsRow) (ud : UserRow),
      env.postFail = false →
      singleBy (post_stats w) (fun r => r.post_id == postId) = some pd →
      env.userFail = false →
      singleBy w.users (fun u => u.id == pd.user_id) = some ud →
      env.commentUsersFail = true →
      (GETpostDetail w postId env).status = 200 ∧
      ∀ rp, (GETpostDetail w postId env).post = some rp →
        ∀ c ∈ rp.comments, c.user_name = "Unknown" ∧ c.user_clerk_id = "") := by
  constructor
  · intro w req env n hl h1 h50 hq huf hcuf
    have hguard : limitOutOfRangeJS (some n) = false := by
      simp only [limitOutOfRangeJS, Bool.or_eq_false_iff, decide_eq_false_iff_not, not_lt]
      omega
    by_cases he : ((matchingStats w req.userId).drop req.offset).take n.toNat = []
    · refine ⟨by simp [GETposts, hl, hguard, hq, he], ?_⟩
      intro p hp
      simp [GETposts, hl, hguard, hq, he] at hp
    · have hlen : req.offset < (matchingStats w req.userId).length := by
        by_contra hle
        push_neg at hle
        exact he (by rw [List.drop_eq_nil_iff.mpr hle, List.take_nil])
      have hcond : ¬(n ≤ 0 ∨ (matchingStats w req.userId).length ≤ req.offset) := by
        push_neg
        exact ⟨by omega, hlen⟩
      refine ⟨by simp [GETposts, hl, hguard, hq, he], ?_⟩
      intro p hp
      simp only [GETposts, hl, hguard, hq, huf, hcuf] at hp
      simp [hcond] at hp
      obtain ⟨r, hr, rfl⟩ :=
        List.mem_map.mp (List.drop_subset _ _ (List.take_subset _ _ hp))
      refine ⟨by simp [findUser], by simp [findUser], ?_⟩
      intro c hc
      obtain ⟨c0, hc0, rfl⟩ := List.mem_map.mp hc
      exact ⟨by simp [serializeComment, findUser], by simp [serializeComment, findUser]⟩
  · intro w postId env pd ud hpf hpd huf hud hcuf
    refine ⟨by simp [GETpostDetail, hpf, hpd, huf, hud], ?_⟩
    intro rp hrp c hc
    simp [GETpostDetail, hpf, hpd, huf, hud, hcuf] at hrp
    subst hrp
    simp [List.mem_map] at hc
    obtain ⟨c0, hc0, hceq⟩ := hc
    subst hceq
    exact ⟨by simp [serializeComment, findUser], by simp [serializeComment, findUser]⟩

/-- Witness for amended C7: with the author and comment-author lookups
failing, the feed of `wBase` is still 200, and with the comment-author
lookup failing, the detail view of p1 is still 200. -/
theorem enrichment_failures_degrade_witness :
    (GETposts wBase ⟨some "10", 0, none⟩ ⟨none, false, true, false, true, false, false⟩).status = 200 ∧
    (GETpostDetail wBase "p1" ⟨none, false, false, false, true, false, false⟩).status = 200 :=
  ⟨(enrichment_failures_degrade.1 wBase ⟨some "10", 0, none⟩
      ⟨none, false, true, false, true, false, false⟩ 10 (by decide) (by decide)
      (by decide) rfl rfl rfl).1,
   (enrichment_failures_degrade.2 wBase "p1" ⟨none, false, false, false, true, false, false⟩
      (postStatsOf wBase pBob) uBob rfl (by decide) rfl (by decide) rfl).1⟩

/-- C9 counterexample: creating a post via POST /posts with the submitted
caption " a" (2 characters, valid) succeeds, but immediately fetching the
created post via GET /posts/[postId] returns caption "a" — the trimmed
value — not the submitted " a". -/
theorem roundtrip_caption_not_submitted :
    (POSTposts wCreate reqTrim envCreateOk).status = 200 ∧
    ((GETpostDetail (POSTposts wCreate reqTrim envCreateOk).world
        "post-0" envDetailOk).post.map RespPost.caption) = some (some "a") ∧
    reqTrim.caption = some " a" ∧
    ((GETpostDetail (POSTposts wCreate reqTrim envCreateOk).world
        "post-0" envDetailOk).post.map RespPost.caption) ≠ some (some " a") := by
  refine ⟨by decide, by decide, by decide, by decide⟩

/-- Helper: when the post_stats row and the author row of a post are both
found, GET /posts/[postId] answers 200 and the returned post carries that
row's image URL and caption and the author's name. -/
theorem GETpostDetail_found (w : World) (postId : String) (env : DetailEnv)
    (pd : PostStatsRow) (ud : UserRow)
    (hpf : env.postFail = false)
    (hpd : singleBy (post_stats w) (fun r => r.post_id == postId) = some pd)
    (huf : env.userFail = false)
    (hud : singleBy w.users (fun x => x.id == pd.user_id) = some ud) :
    (GETpostDetail w postId env).status = 200 ∧
    ∃ rp, (GETpostDetail w postId env).post = some rp ∧
      rp.image_url = pd.image_url ∧ rp.caption = pd.caption ∧
      rp.user_name = ud.name := by
  constructor
  · simp only [GETpostDetail, hpf, huf, Bool.false_eq_true, if_false, hpd, hud]
  · simp only [GETpostDetail, hpf, huf, Bool.false_eq_true, if_false, hpd, hud]
    exact ⟨_, rfl, rfl, rfl, rfl⟩

/-- C9 amended: creating a post and immediately fetching it returns the
same image URL as the created row, and a caption equal to the stored
caption, namely the submitted caption trimmed of surrounding whitespace
(null when the caption was absent, empty, or whitespace-only) — not
necessarily the submitted caption verbatim. -/
theorem create_then_fetch_roundtrip
    (w : World) (req : CreateReq) (env : CreateEnv) (denv : DetailEnv)
    (cid : String) (f : ImgFile) (u : UserRow)
    (hauth : env.clerkUserId = some cid) (hfd : env.formDataFail = false)
    (himg : req.image = some f) (htype : f.type ∈ allowedMimeTypes)
    (hsize : f.size ≤ 5 * 1024 * 1024)
    (hcap : (match req.caption with
             | some c => truthy c && decide (c.length > 2200)
             | none => false) = false)
    (huser : singleBy w.users (fun x => x.clerk_id == cid) = some u)
    (hufail : env.userFail = false) (hsrv : env.serviceRoleFail = false)
    (hbuck : ∀ bs, env.buckets = some bs → "posts" ∈ bs)
    (hup : env.uploadErr = none) (hins : env.insertFail = false)
    (hfresh : ∀ p ∈ w.posts, p.id ≠ "post-" ++ toString w.nextId)
    (hauthor : singleBy w.users (fun x => x.id == u.id) = some u)
    (hpf : denv.postFail = false) (hdut : denv.userFail = false) :
    ∃ row, (POSTposts w req env).post = some row ∧
      (GETpostDetail (POSTposts w req env).world row.id denv).status = 200 ∧
      ∃ rp, (GETpostDetail (POSTposts w req env).world row.id denv).post = some rp ∧
        rp.image_url = row.image_url ∧
        rp.caption = trimOrNull req.caption ∧
        rp.caption = row.caption := by
  have hpost : POSTposts w req env =
      ⟨200, .ok,
       (insertPost w u.id (publicUrlOf (fileNameOf u.id env.timestamp env.random f.name))
         (trimOrNull req.caption) env.timestamp).1,
       [fileNameOf u.id env.timestamp env.random f.name], [],
       some (insertPost w u.id
         (publicUrlOf (fileNameOf u.id env.timestamp env.random f.name))
         (trimOrNull req.caption) env.timestamp).2⟩ := by
    cases hb : env.buckets with
    | none => simp [POSTposts, hauth, hfd, himg, htype, hcap, huser, hufail, hsrv, hb,
        hup, hins, Nat.not_lt.mpr hsize]
    | some bs => simp [POSTposts, hauth, hfd, himg, htype, hcap, huser, hufail, hsrv, hb,
        hbuck bs hb, hup, hins, Nat.not_lt.mpr hsize]
  have hins2 : insertPost w u.id
      (publicUrlOf (fileNameOf u.id env.timestamp env.random f.name))
      (trimOrNull req.caption) env.timestamp =
      (({ w with
          posts := (⟨"post-" ++ toString w.nextId, u.id,
            publicUrlOf (fileNameOf u.id env.timestamp env.random f.name),
            trimOrNull req.caption, env.timestamp⟩ : PostRow) :: w.posts,
          nextId := w.nextId + 1 } : World),
       (⟨"post-" ++ toString w.nextId, u.id,
          publicUrlOf (fileNameOf u.id env.timestamp env.random f.name),
          trimOrNull req.caption, env.timestamp⟩ : PostRow)) := rfl
  rw [hpost, hins2]
  refine ⟨⟨"post-" ++ toString w.nextId, u.id,
    publicUrlOf (fileNameOf u.id env.timestamp env.random f.name),
    trimOrNull req.caption, env.timestamp⟩, rfl, ?_⟩
  set row : PostRow := ⟨"post-" ++ toString w.nextId, u.id,
    publicUrlOf (fileNameOf u.id env.timestamp env.random f.name),
    trimOrNull req.caption, env.timestamp⟩ with hrowdef
  set w2 : World := { w with posts := row :: w.posts, nextId := w.nextId + 1 } with hw2def
  have hrest : (w.posts.map (postStatsOf w2)).filter (fun r => r.post_id == row.id) = [] := by
    rw [List.filter_eq_nil_iff]
    intro r hr
    obtain ⟨q, hq, rfl⟩ := List.mem_map.mp hr
    simpa [postStatsOf, hrowdef] using hfresh q hq
  have hsingle : singleBy (post_stats w2) (fun r => r.post_id == row.id) =
      some (postStatsOf w2 row) := by
    have hmap : post_stats w2 = postStatsOf w2 row :: w.posts.map (postStatsOf w2) := rfl
    rw [singleBy, hmap, List.filter_cons]
    rw [if_pos (by simp [postStatsOf])]
    rw [hrest]
  have hauthor2 : singleBy w2.users (fun x => x.id == (postStatsOf w2 row).user_id) =
      some u := hauthor
  obtain ⟨hst, rp, hrp, himgq, hcapq, hnameq⟩ :=
    GETpostDetail_found w2 row.id denv (postStatsOf w2 row) u hpf hsingle hdut hauthor2
  exact ⟨hst, rp, hrp, himgq, hcapq, hcapq⟩

/-- Witness for amended C9: after Alice creates a post with caption " a"
in the empty store, fetching the created post succeeds. -/
theorem create_then_fetch_roundtrip_witness :
    (GETpostDetail (POSTposts wCreate reqTrim envCreateOk).world "post-0"
      envDetailOk).status = 200 := by
  obtain ⟨row, hrow, hst, _⟩ := create_then_fetch_roundtrip wCreate reqTrim envCreateOk
    envDetailOk "c1" ⟨"a.jpg", "image/jpeg", 100⟩ uAlice rfl rfl rfl (by decide)
    (by decide) (by decide) (by decide) rfl rfl (fun bs hb => by cases hb; decide)
    rfl rfl (fun p hp => by simp [wCreate] at hp) (by decide) rfl rfl
  have hid : row = ⟨"post-0", "u1",
      publicUrlOf (fileNameOf "u1" 7 "r" "a.jpg"), some "a", 7⟩ := by
    have hconc : (POSTposts wCreate reqTrim envCreateOk).post =
        some ⟨"post-0", "u1", publicUrlOf (fileNameOf "u1" 7 "r" "a.jpg"), some "a", 7⟩ := by
      decide
    rw [hrow] at hconc
    exact Option.some.inj hconc
  rw [hid] at hst
  exact hst
